import Mathlib

/-!
Verification of the hotel-booking backend (`src/main.py`, `src/schemas.py`).

The HTTP layer is embedded shallowly: each endpoint handler becomes a Lean
function from a typed request and a store state to a response and a new store
state.  MongoDB documents are association lists of string keys and `Value`s;
the store is one list of documents per collection plus a counter used to mint
fresh object identifiers.  The persistence helpers (`create_document`,
`get_documents`) live in `database.py`, which is not part of `src/`; they are
modelled from the spec contract (create inserts and returns the new id, query
filters by field equality, find returns the first match or nothing).
-/

/-- Calendar date, embedding Python `datetime.date` values as plain numerals. -/
structure CalDate where
  year : Nat
  month : Nat
  day : Nat
deriving DecidableEq, Repr

/-- Left-pad the decimal rendering of `n` with zeros to width `w`. -/
def padNum (w n : Nat) : String :=
  let s := toString n
  String.mk (List.replicate (w - s.length) '0') ++ s

/-- Python `date.isoformat`: `YYYY-MM-DD`. -/
def CalDate.isoformat (d : CalDate) : String :=
  padNum 4 d.year ++ "-" ++ padNum 2 d.month ++ "-" ++ padNum 2 d.day

/-- A decimal literal `mant × 10^(-dec)` as written in the source.  The
program performs no float arithmetic — prices and ratings are only stored
and returned — so embedding the literals exactly is faithful. -/
structure DecLit where
  mant : Int
  dec : Nat
deriving DecidableEq, Repr

/-- Values stored in documents.  Floats carry no arithmetic in this program
(they are only stored and compared), so they are embedded as exact decimal
literals.  `vOid` holds the 24-character hex rendering of a BSON ObjectId. -/
inductive Value where
  | vStr (s : String)
  | vInt (n : Int)
  | vNum (q : DecLit)
  | vDate (d : CalDate)
  | vOid (o : String)
  | vList (xs : List String)
  | vNone
deriving DecidableEq, Repr

/-- A document: an association list with (by construction) distinct keys,
embedding a Python dict with its insertion order. -/
abbrev Doc := List (String × Value)

/-- First value bound to key `k`, mirroring dict lookup. -/
def getVal (d : Doc) (k : String) : Option Value :=
  match d with
  | [] => none
  | kv :: rest => if kv.1 = k then some kv.2 else getVal rest k

/-- A Mongo equality filter document matches a stored document when every
filter pair is bound identically in the document. -/
def matchesFilter (flt : Doc) (d : Doc) : Bool :=
  flt.all (fun kv => decide (getVal d kv.1 = some kv.2))

/-- Python `str(value)` as used on ObjectIds (and, defensively, other values)
by `serialize_doc`. -/
def valueStr : Value → String
  | .vStr s => s
  | .vInt n => toString n
  | .vNum q => toString q.mant ++ "e-" ++ toString q.dec
  | .vDate d => d.isoformat
  | .vOid o => o
  | .vList _ => "list"
  | .vNone => "None"

/-- Hex digit test used by BSON ObjectId parsing. -/
def isHexDig (c : Char) : Bool :=
  c.isDigit || ('a' ≤ c && c ≤ 'f') || ('A' ≤ c && c ≤ 'F')

/-- `bson.ObjectId(s)` succeeds on a string exactly when it is 24 hex
characters; otherwise the constructor raises `InvalidId`. -/
def isValidObjectId (s : String) : Bool :=
  s.length == 24 && s.data.all isHexDig

/-- Python `str.split(sep)` for a one-character separator, over the character
list: always at least one (possibly empty) group. -/
def splitChar (c : Char) : List Char → List (List Char)
  | [] => [[]]
  | a :: as =>
    let r := splitChar c as
    if a = c then [] :: r
    else (a :: r.headD []) :: r.tail

/-- Modelled from the spec: pydantic `EmailStr` validation (performed by the
framework before a handler runs) — a single `@`, a nonempty local part, and a
domain containing a dot. -/
def isValidEmail (s : String) : Bool :=
  match splitChar '@' s.data with
  | [lp, dom] => !lp.isEmpty && !dom.isEmpty && dom.contains '.'
  | _ => false

/-- The hex ObjectId minted for the `n`-th insertion. -/
def freshOid (n : Nat) : String :=
  let ds := Nat.toDigits 16 n
  String.mk (List.replicate (24 - ds.length) '0' ++ ds)

/-- The four collections of the persisted layout. -/
inductive Coll where
  | user
  | hotel
  | booking
  | contactmessage
deriving DecidableEq, Repr

/-- The document store: one flat collection per entity type, plus the counter
from which inserted documents receive their `_id`. -/
structure Store where
  user : List Doc
  hotel : List Doc
  booking : List Doc
  contactmessage : List Doc
  nextId : Nat
deriving DecidableEq, Repr

def Store.get (s : Store) : Coll → List Doc
  | .user => s.user
  | .hotel => s.hotel
  | .booking => s.booking
  | .contactmessage => s.contactmessage

/-- An empty store. -/
def emptyStore : Store :=
  { user := [], hotel := [], booking := [], contactmessage := [], nextId := 0 }

/-- Modelled from the spec: `create_document` of the absent `database.py`
(contract `create(collection, entity) -> id`): the store assigns a fresh
`_id`, appends the document to the collection, and returns the id string. -/
def create_document (c : Coll) (data : Doc) (s : Store) : String × Store :=
  let oid := freshOid s.nextId
  let d := data ++ [("_id", Value.vOid oid)]
  let s2 : Store :=
    match c with
    | .user => { s with user := s.user ++ [d], nextId := s.nextId + 1 }
    | .hotel => { s with hotel := s.hotel ++ [d], nextId := s.nextId + 1 }
    | .booking => { s with booking := s.booking ++ [d], nextId := s.nextId + 1 }
    | .contactmessage => { s with contactmessage := s.contactmessage ++ [d], nextId := s.nextId + 1 }
  (oid, s2)

/-- Modelled from the spec: `get_documents` of the absent `database.py`
(contract `query(collection, filter) -> sequence of entities`): every
document of the collection matching the equality filter, in insertion
order.  The source passes `None` as limit, so no limit is modelled. -/
def get_documents (c : Coll) (flt : Doc) (s : Store) : List Doc :=
  (s.get c).filter (matchesFilter flt)

/-- Mongo `find_one`: the first document of the collection matching the
filter, if any. -/
def find_one (c : Coll) (flt : Doc) (s : Store) : Option Doc :=
  (s.get c).find? (matchesFilter flt)

/-- `serialize_doc`: copy the document, pop `_id` into a string-valued `id`
appended at the end, then render every value that has an `isoformat`
attribute (dates) as its ISO-8601 string. -/
def isoConvert : Value → Value
  | .vDate d => .vStr d.isoformat
  | v => v

def serialize_doc (doc : Doc) : Doc :=
  if doc = [] then doc
  else
    let doc1 : Doc :=
      match getVal doc "_id" with
      | some v => doc.filter (fun (kv : String × Value) => kv.1 != "_id") ++ [("id", Value.vStr (valueStr v))]
      | none => doc
    doc1.map (fun (kv : String × Value) => (kv.1, isoConvert kv.2))

/-! ## Schemas (`src/schemas.py`) and request models (`src/main.py`) -/

/-- The `Hotel` pydantic model. -/
structure Hotel where
  name : String
  city : String
  description : String
  images : List String
  price_per_night : DecLit
  rating : DecLit
deriving DecidableEq, Repr

/-- `model_dump` of a `Hotel`, in field order. -/
def hotelDoc (h : Hotel) : Doc :=
  [("name", .vStr h.name), ("city", .vStr h.city),
   ("description", .vStr h.description), ("images", .vList h.images),
   ("price_per_night", .vNum h.price_per_night), ("rating", .vNum h.rating)]

/-- The `BookingRequest` request model of `main.py`.  Note that `guests` is a
plain `int` here: the 1..10 bounds live only on the `Booking` schema, which
the handler constructs after the hotel lookup. -/
structure BookingRequest where
  user_email : String
  hotel_id : String
  check_in : CalDate
  check_out : CalDate
  guests : Int
  special_requests : Option String
deriving DecidableEq, Repr

/-- `model_dump` of a booking, in field order. -/
def bookingDoc (req : BookingRequest) : Doc :=
  [("user_email", .vStr req.user_email), ("hotel_id", .vStr req.hotel_id),
   ("check_in", .vDate req.check_in), ("check_out", .vDate req.check_out),
   ("guests", .vInt req.guests),
   ("special_requests", match req.special_requests with
                        | some t => .vStr t
                        | none => .vNone)]

/-- The `ContactMessage` pydantic model: required name, email and message. -/
structure ContactMessage where
  name : String
  email : String
  message : String
deriving DecidableEq, Repr

def contactDoc (m : ContactMessage) : Doc :=
  [("name", .vStr m.name), ("email", .vStr m.email), ("message", .vStr m.message)]

/-- The `LoginRequest` model: optional name, email, password. -/
structure LoginRequest where
  name : Option String
  email : String
  password : String
deriving DecidableEq, Repr

/-! ## Responses -/

/-- Outcome of a request that answers with an id-bearing body on success:
framework validation failure (HTTP 422 with the violating fields), an
`HTTPException` raised by the handler, or a success body. -/
inductive BookingResp where
  | validationError (fields : List String)
  | httpError (status : Nat) (detail : String)
  | ok (id : String) (message : String)
deriving DecidableEq, Repr

def BookingResp.statusCode : BookingResp → Nat
  | .validationError _ => 422
  | .httpError st _ => st
  | .ok _ _ => 200

/-- Outcome of `POST /auth/login`: the success body carries the profile
(`name` value straight from the stored document, plus the request email). -/
inductive LoginResp where
  | validationError (fields : List String)
  | httpError (status : Nat) (detail : String)
  | ok (nameVal : Value) (email : String)
deriving DecidableEq, Repr

/-- Store operations a handler performs, in order (reads and writes). -/
inductive StoreOp where
  | read (c : Coll)
  | write (c : Coll)
deriving DecidableEq, Repr

/-! ## Endpoint handlers (`src/main.py`) -/

/-- Fields of a `BookingRequest` body the framework rejects: only the email
format can fail (`guests` is an unconstrained `int` at this layer). -/
def bookingReqErrors (req : BookingRequest) : List String :=
  if isValidEmail req.user_email then [] else ["user_email"]

/-- Fields rejected when the handler constructs `Booking(**req.model_dump())`
against the `Booking` schema: email format and the `guests` 1..10 bounds. -/
def bookingModelErrors (req : BookingRequest) : List String :=
  (if isValidEmail req.user_email then [] else ["user_email"]) ++
  (if req.guests < 1 ∨ 10 < req.guests then ["guests"] else [])

/-- `POST /bookings`.  After framework validation of the body, the handler
parses the hotel id (`ObjectId` raising is swallowed by the broad handler
into a 500), looks the hotel up (404 when absent), constructs the `Booking`
schema value (pydantic failure is swallowed into a 500), and only then
inserts the booking.  The third component records the store operations
performed, in order. -/
def create_booking (req : BookingRequest) (s : Store) :
    BookingResp × Store × List StoreOp :=
  match bookingReqErrors req with
  | f :: fs => (.validationError (f :: fs), s, [])
  | [] =>
    if isValidObjectId req.hotel_id then
      match find_one .hotel [("_id", .vOid req.hotel_id)] s with
      | none => (.httpError 404 "Hotel not found", s, [.read .hotel])
      | some _ =>
        match bookingModelErrors req with
        | f :: fs =>
          (.httpError 500 ("validation error for Booking: " ++ String.intercalate ", " (f :: fs)),
           s, [.read .hotel])
        | [] =>
          let r := create_document .booking (bookingDoc req) s
          (.ok r.1 "Booking confirmed", r.2, [.read .hotel, .write .booking])
    else
      (.httpError 500 (req.hotel_id ++ " is not a valid ObjectId"), s, [])

/-- Fields of a `ContactMessage` body the framework rejects: email format and
the `min_length=5` bound on `message`. -/
def contactFieldErrors (m : ContactMessage) : List String :=
  (if isValidEmail m.email then [] else ["email"]) ++
  (if m.message.length < 5 then ["message"] else [])

/-- `POST /contact`: validated messages are stored; the body returns the new
id and status `received`. -/
def contact (m : ContactMessage) (s : Store) : BookingResp × Store :=
  match contactFieldErrors m with
  | f :: fs => (.validationError (f :: fs), s)
  | [] =>
    let r := create_document .contactmessage (contactDoc m) s
    (.ok r.1 "received", r.2)

/-- The default user name on login: `req.name or req.email.split("@")[0]`
(an empty-string name is falsy in Python and also falls back). -/
def loginName (req : LoginRequest) : String :=
  match req.name with
  | some n => if n = "" then String.mk ((splitChar '@' req.email.data).headD []) else n
  | none => String.mk ((splitChar '@' req.email.data).headD [])

/-- The user document inserted on first login. -/
def loginUserData (req : LoginRequest) : Doc :=
  [("name", .vStr (loginName req)), ("email", .vStr req.email),
   ("password_hash", .vStr "demo-hash")]

/-- `POST /auth/login`: find the user by email; create it first when absent;
answer with the stored name and the request email.  The unreachable
re-lookup miss (Python would raise `AttributeError` on `None.get`) surfaces
as a 500 through the broad exception handler. -/
def login (req : LoginRequest) (s : Store) : LoginResp × Store :=
  if isValidEmail req.email then
    match find_one .user [("email", .vStr req.email)] s with
    | some existing =>
      ((.ok (match getVal existing "name" with
             | some v => v
             | none => .vStr (loginName req)) req.email), s)
    | none =>
      let r := create_document .user (loginUserData req) s
      match find_one .user [("email", .vStr req.email)] r.2 with
      | some existing =>
        ((.ok (match getVal existing "name" with
               | some v => v
               | none => .vStr (loginName req)) req.email), r.2)
      | none => (.httpError 500 "AttributeError", r.2)
  else
    (.validationError ["email"], s)

/-- The three fixed sample hotels of `SAMPLE_HOTELS`. -/
def SAMPLE_HOTELS : List Hotel :=
  [{ name := "Seaside Paradise Resort", city := "Miami",
     description := "Oceanfront resort with private beach, pool, and spa.",
     images := ["https://images.unsplash.com/photo-1501117716987-c8e3f71b1e47",
                "https://images.unsplash.com/photo-1559599238-0f8c2f66a7e3"],
     price_per_night := { mant := 2190, dec := 1 }, rating := { mant := 46, dec := 1 } },
   { name := "Urban Chic Hotel", city := "New York",
     description := "Boutique hotel in the heart of the city with skyline views.",
     images := ["https://images.unsplash.com/photo-1522708323590-d24dbb6b0267",
                "https://images.unsplash.com/photo-1509057199576-632a47484ece"],
     price_per_night := { mant := 2990, dec := 1 }, rating := { mant := 47, dec := 1 } },
   { name := "Mountain Escape Lodge", city := "Denver",
     description := "Cozy lodge with mountain views, hiking access, and hot tubs.",
     images := ["https://images.unsplash.com/photo-1505691938895-1758d7feb511",
                "https://images.unsplash.com/photo-1507679799987-c73779587ccf"],
     price_per_night := { mant := 1890, dec := 1 }, rating := { mant := 45, dec := 1 } }]

/-- One step of `POST /hotels/seed`: insert the sample hotel unless a hotel
of the same name exists. -/
def seedStep (s : Store) (h : Hotel) : Store :=
  match find_one .hotel [("name", .vStr h.name)] s with
  | some _ => s
  | none => (create_document .hotel (hotelDoc h) s).2

/-- `POST /hotels/seed`: run the seed step over the three sample hotels. -/
def seed_hotels (s : Store) : Store :=
  SAMPLE_HOTELS.foldl seedStep s

/-- The filter document `GET /hotels` builds: `{"city": city} if city else` an
empty filter — both a missing parameter and an empty string select all. -/
def cityFilter (city : Option String) : Doc :=
  match city with
  | some c => if c = "" then [] else [("city", .vStr c)]
  | none => []

/-- `GET /hotels`: query by the city filter and serialize every document. -/
def list_hotels (city : Option String) (s : Store) : List Doc :=
  (get_documents .hotel (cityFilter city) s).map serialize_doc

/-! ## Counting helpers used by the claims -/

/-- Number of documents bound to `("name", n)`. -/
def countName (docs : List Doc) (n : String) : Nat :=
  docs.countP (fun d => decide (getVal d "name" = some (.vStr n)))

/-- Number of documents bound to `("email", e)`. -/
def countEmail (docs : List Doc) (e : String) : Nat :=
  docs.countP (fun d => decide (getVal d "email" = some (.vStr e)))

/-! ## Concrete inputs used by witnesses and counterexamples -/

/-- A stored document carrying a store `_id` and a date field. -/
def wDoc : Doc :=
  [("_id", Value.vOid (freshOid 0)), ("check_in", Value.vDate ⟨2025, 6, 1⟩),
   ("x", Value.vStr "y")]

/-- The store obtained by seeding the empty store; its first hotel has
`_id = freshOid 0`. -/
def seededStore : Store := seed_hotels emptyStore

/-- The document stored for the first sample hotel when seeding the empty
store. -/
def seededHotel0 : Doc :=
  hotelDoc
    { name := "Seaside Paradise Resort", city := "Miami",
      description := "Oceanfront resort with private beach, pool, and spa.",
      images := ["https://images.unsplash.com/photo-1501117716987-c8e3f71b1e47",
                 "https://images.unsplash.com/photo-1559599238-0f8c2f66a7e3"],
      price_per_night := { mant := 2190, dec := 1 }, rating := { mant := 46, dec := 1 } }
    ++ [("_id", Value.vOid (freshOid 0))]

/-- Booking request with zero guests for the first seeded hotel. -/
def reqGuests0 : BookingRequest :=
  { user_email := "a@b.com", hotel_id := freshOid 0,
    check_in := ⟨2025, 6, 1⟩, check_out := ⟨2025, 6, 3⟩, guests := 0,
    special_requests := none }

/-- Booking request whose hotel id is well formed but matches no hotel. -/
def reqAbsentHotel : BookingRequest :=
  { user_email := "a@b.com", hotel_id := freshOid 99,
    check_in := ⟨2025, 6, 1⟩, check_out := ⟨2025, 6, 3⟩, guests := 2,
    special_requests := none }

/-- Booking request whose hotel id is not a well-formed ObjectId. -/
def reqBadOid : BookingRequest :=
  { user_email := "a@b.com", hotel_id := "not-a-hex-id",
    check_in := ⟨2025, 6, 1⟩, check_out := ⟨2025, 6, 3⟩, guests := 2,
    special_requests := none }

/-- Booking request with `check_out` strictly before `check_in`, for the
first seeded hotel. -/
def reqReversedDates : BookingRequest :=
  { user_email := "a@b.com", hotel_id := freshOid 0,
    check_in := ⟨2025, 6, 3⟩, check_out := ⟨2025, 6, 1⟩, guests := 2,
    special_requests := none }

/-- An already-stored booking for the first seeded hotel covering the dates
2025-06-01..2025-06-04. -/
def existingBooking : Doc :=
  [("user_email", Value.vStr "c@d.com"), ("hotel_id", Value.vStr (freshOid 0)),
   ("check_in", Value.vDate ⟨2025, 6, 1⟩), ("check_out", Value.vDate ⟨2025, 6, 4⟩),
   ("guests", Value.vInt 2), ("special_requests", Value.vNone),
   ("_id", Value.vOid (freshOid 7))]

/-- The seeded store with an existing booking for the first hotel. -/
def storeWithBooking : Store :=
  { seededStore with booking := [existingBooking] }

/-- A store whose hotel collection already holds two documents named after
the first sample hotel. -/
def dupNameStore : Store :=
  { user := [],
    hotel := [[("name", Value.vStr "Seaside Paradise Resort")],
              [("name", Value.vStr "Seaside Paradise Resort")]],
    booking := [], contactmessage := [], nextId := 5 }

/-- A store holding one hotel located in Miami. -/
def miamiStore : Store :=
  { user := [],
    hotel := [[("_id", Value.vOid (freshOid 0)), ("name", Value.vStr "H"),
               ("city", Value.vStr "Miami")]],
    booking := [], contactmessage := [], nextId := 1 }

/-- Contact message whose body has four characters. -/
def contactMsg4 : ContactMessage :=
  { name := "Bob", email := "a@b.com", message := "abcd" }

/-- Contact message whose body has five characters. -/
def contactMsg5 : ContactMessage :=
  { name := "Bob", email := "a@b.com", message := "hello" }

/-- Login request for an email no stored user has. -/
def loginReqNew : LoginRequest :=
  { name := none, email := "a@b.com", password := "pw" }

/-! ## Helper lemmas -/

theorem getVal_map_iso (l : Doc) (k : String) :
    getVal (l.map (fun (kv : String × Value) => (kv.1, isoConvert kv.2))) k
      = (getVal l k).map isoConvert := by
  induction l with
  | nil => rfl
  | cons kv rest ih =>
    by_cases h : kv.1 = k
    · simp [getVal, h]
    · simp [getVal, h, ih]

theorem getVal_append_none (l₁ l₂ : Doc) (k : String) (h : getVal l₁ k = none) :
    getVal (l₁ ++ l₂) k = getVal l₂ k := by
  induction l₁ with
  | nil => rfl
  | cons kv rest ih =>
    by_cases hk : kv.1 = k
    · simp [getVal, hk] at h
    · simp only [getVal, hk, if_false] at h
      simpa [getVal, hk] using ih h

theorem getVal_filterOut (l : Doc) (k : String) :
    getVal (l.filter (fun (kv : String × Value) => kv.1 != k)) k = none := by
  induction l with
  | nil => rfl
  | cons kv rest ih =>
    by_cases h : kv.1 = k
    · simpa [List.filter_cons, h] using ih
    · simpa [List.filter_cons, h, getVal] using ih

theorem isoConvert_ne_vDate (v : Value) (d : CalDate) : isoConvert v ≠ Value.vDate d := by
  cases v <;> simp [isoConvert]

/-! ## C5 — serialization of stored documents -/

/-- C5: for a document carrying a store-assigned `_id`, `serialize_doc`
removes the `_id` key, appends a string-typed `id` holding its string
rendering, replaces every date-valued field by its ISO-8601 string and leaves
no date-typed value in the result; and `GET /hotels` — the response that
returns stored documents — applies exactly this serialization to every
document it returns. -/
theorem C5_serialize_doc_spec (doc : Doc) (v : Value)
    (hid : getVal doc "_id" = some v) :
    getVal (serialize_doc doc) "_id" = none ∧
    ("id", Value.vStr (valueStr v)) ∈ serialize_doc doc ∧
    (∀ k dt, (k, Value.vDate dt) ∈ doc → k ≠ "_id" →
      (k, Value.vStr (CalDate.isoformat dt)) ∈ serialize_doc doc) ∧
    (∀ kv, kv ∈ serialize_doc doc → ∀ dt, kv.2 ≠ Value.vDate dt) ∧
    (∀ c s, list_hotels c s = (get_documents .hotel (cityFilter c) s).map serialize_doc) := by
  have hne : doc ≠ [] := by
    intro h
    rw [h] at hid
    simp [getVal] at hid
  refine ⟨?_, ?_, ?_, ?_, fun c s => rfl⟩
  · rw [serialize_doc]
    simp only [if_neg hne, hid]
    rw [getVal_map_iso]
    rw [getVal_append_none _ _ _ (getVal_filterOut doc "_id")]
    simp [getVal]
  · rw [serialize_doc]
    simp only [if_neg hne, hid]
    refine List.mem_map.mpr ⟨("id", Value.vStr (valueStr v)), ?_, ?_⟩
    · exact List.mem_append_right _ (List.mem_singleton.mpr rfl)
    · simp [isoConvert]
  · intro k dt hmem hk
    rw [serialize_doc]
    simp only [if_neg hne, hid]
    refine List.mem_map.mpr ⟨(k, Value.vDate dt), ?_, ?_⟩
    · refine List.mem_append_left _ (List.mem_filter.mpr ⟨hmem, ?_⟩)
      simpa using hk
    · simp [isoConvert]
  · intro kv hkv dt
    rw [serialize_doc] at hkv
    simp only [if_neg hne, hid] at hkv
    rcases List.mem_map.mp hkv with ⟨a, _, rfl⟩
    exact isoConvert_ne_vDate a.2 dt

/-- Witness for C5 at a concrete stored document. -/
theorem C5_serialize_doc_spec_witness :
    getVal (serialize_doc wDoc) "_id" = none ∧
    ("id", Value.vStr (valueStr (Value.vOid (freshOid 0)))) ∈ serialize_doc wDoc ∧
    ("check_in", Value.vStr (CalDate.isoformat ⟨2025, 6, 1⟩)) ∈ serialize_doc wDoc := by
  have h := C5_serialize_doc_spec wDoc (Value.vOid (freshOid 0)) (by decide)
  exact ⟨h.1, h.2.1, h.2.2.1 "check_in" ⟨2025, 6, 1⟩ (by decide) (by decide)⟩

/-! ## C4 and C10 — the city filter of `GET /hotels` -/

/-- C4 (amended): with a NON-EMPTY city parameter, `GET /hotels` returns
exactly the serializations of the hotels whose `city` field equals the
parameter; with no city parameter it returns every hotel.  (The empty-string
parameter does not behave this way — see the counterexample.) -/
theorem C4_city_filter (s : Store) (c : String) (hc : c ≠ "") :
    list_hotels (some c) s
      = (s.hotel.filter
          (fun d => decide (getVal d "city" = some (Value.vStr c)))).map serialize_doc
    ∧ list_hotels none s = s.hotel.map serialize_doc := by
  have hflt : cityFilter (some c) = [("city", Value.vStr c)] := by
    simp [cityFilter, hc]
  constructor
  · unfold list_hotels get_documents
    rw [hflt]
    simp only [Store.get]
    congr 1
    apply List.filter_congr
    intro d _
    simp [matchesFilter]
  · unfold list_hotels get_documents cityFilter
    simp only [Store.get]
    have h : matchesFilter [] = fun (_ : Doc) => true := by
      funext d
      rfl
    rw [h, List.filter_true]

/-- Witness for C4 at a concrete store and city. -/
theorem C4_city_filter_witness :
    list_hotels (some "Miami") miamiStore
      = (miamiStore.hotel.filter
          (fun d => decide (getVal d "city" = some (Value.vStr "Miami")))).map serialize_doc := by
  exact (C4_city_filter miamiStore "Miami" (by decide)).1

/-- C4 counterexample: supplying `city=""` does NOT return the hotels whose
city equals the empty string — the store holds one Miami hotel, the
empty-string filter set is empty, yet the endpoint returns the Miami hotel. -/
theorem C4_city_filter_counterexample :
    list_hotels (some "") miamiStore
      ≠ (miamiStore.hotel.filter
          (fun d => decide (getVal d "city" = some (Value.vStr "")))).map serialize_doc := by
  decide

/-- C10: supplying `city=` as the empty string is treated as omitting the
filter — the response lists every hotel in the store. -/
theorem C10_empty_city_lists_all (s : Store) :
    list_hotels (some "") s = list_hotels none s ∧
    list_hotels (some "") s = s.hotel.map serialize_doc := by
  have hf : cityFilter (some "") = cityFilter none := by
    simp [cityFilter]
  constructor
  · unfold list_hotels
    rw [hf]
  · unfold list_hotels get_documents
    rw [hf]
    simp only [Store.get, cityFilter]
    have h : matchesFilter [] = fun (_ : Doc) => true := by
      funext d
      rfl
    rw [h, List.filter_true]

theorem matchesFilter_singleton (k : String) (v : Value) (d : Doc) :
    matchesFilter [(k, v)] d = decide (getVal d k = some v) := by
  simp [matchesFilter]

/-! ## C6 — contact message length bound -/

/-- C6: with a valid email (and any name), `POST /contact` is rejected
exactly when the message is shorter than five characters; the rejection is a
field-level validation failure naming `message` and leaves the store
untouched, while a message of length at least five is accepted and stored in
the `contactmessage` collection. -/
theorem C6_contact_min_length (m : ContactMessage) (s : Store)
    (he : isValidEmail m.email = true) :
    (m.message.length < 5 → contact m s = (.validationError ["message"], s)) ∧
    (5 ≤ m.message.length →
      contact m s = (.ok (freshOid s.nextId) "received",
        { s with
            contactmessage := s.contactmessage
              ++ [contactDoc m ++ [("_id", Value.vOid (freshOid s.nextId))]],
            nextId := s.nextId + 1 })) ∧
    ((contact m s).1.statusCode ≠ 200 ↔ m.message.length < 5) := by
  by_cases hlen : m.message.length < 5
  · have herr : contactFieldErrors m = ["message"] := by
      simp [contactFieldErrors, he, hlen]
    have hc : contact m s = (.validationError ["message"], s) := by
      unfold contact
      rw [herr]
    refine ⟨fun _ => hc, fun h5 => absurd hlen (by omega), ?_⟩
    rw [hc]
    simp [BookingResp.statusCode, hlen]
  · have herr : contactFieldErrors m = [] := by
      simp [contactFieldErrors, he, hlen]
    have hc : contact m s = (.ok (freshOid s.nextId) "received",
        { s with
            contactmessage := s.contactmessage
              ++ [contactDoc m ++ [("_id", Value.vOid (freshOid s.nextId))]],
            nextId := s.nextId + 1 }) := by
      unfold contact
      rw [herr]
      rfl
    refine ⟨fun h4 => absurd h4 hlen, fun _ => hc, ?_⟩
    rw [hc]
    simp [BookingResp.statusCode, hlen]

/-- Witness for C6: the four-character message is rejected with the field
violation and no store change; the five-character one is stored. -/
theorem C6_contact_min_length_witness :
    contact contactMsg4 emptyStore = (.validationError ["message"], emptyStore) ∧
    (contact contactMsg5 emptyStore).2.contactmessage
      = emptyStore.contactmessage
          ++ [contactDoc contactMsg5 ++ [("_id", Value.vOid (freshOid emptyStore.nextId))]] := by
  constructor
  · exact (C6_contact_min_length contactMsg4 emptyStore (by decide)).1 (by decide)
  · rw [(C6_contact_min_length contactMsg5 emptyStore (by decide)).2.1 (by decide)]

/-! ## C9 — malformed hotel id gives 500, not 404 -/

/-- C9: a `POST /bookings` whose `hotel_id` is not a well-formed 24-hex
ObjectId fails with status 500 (the `ObjectId` constructor error is caught by
the broad handler), not 404; the store is untouched and no store operation is
performed. -/
theorem C9_invalid_objectid_500 (req : BookingRequest) (s : Store)
    (he : isValidEmail req.user_email = true)
    (hv : isValidObjectId req.hotel_id = false) :
    create_booking req s
      = (.httpError 500 (req.hotel_id ++ " is not a valid ObjectId"), s, []) ∧
    (create_booking req s).1.statusCode = 500 ∧
    (create_booking req s).1.statusCode ≠ 404 := by
  have herr : bookingReqErrors req = [] := by
    simp [bookingReqErrors, he]
  have hc : create_booking req s
      = (.httpError 500 (req.hotel_id ++ " is not a valid ObjectId"), s, []) := by
    unfold create_booking
    rw [herr]
    simp [hv]
  refine ⟨hc, ?_, ?_⟩ <;> rw [hc] <;> simp [BookingResp.statusCode]

/-- Witness for C9 at a concrete malformed id. -/
theorem C9_invalid_objectid_500_witness :
    create_booking reqBadOid emptyStore
      = (.httpError 500 ("not-a-hex-id" ++ " is not a valid ObjectId"), emptyStore, []) :=
  (C9_invalid_objectid_500 reqBadOid emptyStore (by decide) (by decide)).1

/-! ## C2 — booking against an absent hotel -/

/-- C2 (amended): a `POST /bookings` whose `hotel_id` is a WELL-FORMED
ObjectId matching no stored hotel returns 404 and leaves the store (in
particular the booking collection) unchanged; only the hotel read is
performed.  (A malformed `hotel_id` — which also identifies no hotel —
instead returns 500; see the counterexample.) -/
theorem C2_absent_hotel_404 (req : BookingRequest) (s : Store)
    (he : isValidEmail req.user_email = true)
    (hv : isValidObjectId req.hotel_id = true)
    (hf : find_one .hotel [("_id", Value.vOid req.hotel_id)] s = none) :
    create_booking req s = (.httpError 404 "Hotel not found", s, [.read .hotel]) := by
  have herr : bookingReqErrors req = [] := by
    simp [bookingReqErrors, he]
  unfold create_booking
  rw [herr]
  simp [hv, hf]

/-- Witness for C2 at a concrete well-formed but absent hotel id. -/
theorem C2_absent_hotel_404_witness :
    create_booking reqAbsentHotel emptyStore
      = (.httpError 404 "Hotel not found", emptyStore, [.read .hotel]) :=
  C2_absent_hotel_404 reqAbsentHotel emptyStore (by decide) (by decide) (by decide)

/-- C2 counterexample: in the empty store no `hotel_id` identifies an
existing hotel, yet the malformed id request is answered 500, not 404. -/
theorem C2_absent_hotel_404_counterexample :
    emptyStore.hotel = [] ∧
    (create_booking reqBadOid emptyStore).1.statusCode = 500 ∧
    (create_booking reqBadOid emptyStore).1.statusCode ≠ 404 := by
  decide

/-! ## C7 — no ordering or overlap check on booking dates -/

/-- C7: when the hotel exists and `guests` lies in 1..10, the booking is
created and confirmed with NO constraint relating `check_in` and `check_out`
(the dates are arbitrary, including `check_out` equal to or before
`check_in`) and no inspection of existing bookings: the handler reads only
the hotel and appends the booking document unconditionally. -/
theorem C7_no_date_ordering (req : BookingRequest) (s : Store) (hd : Doc)
    (he : isValidEmail req.user_email = true)
    (hg1 : 1 ≤ req.guests) (hg2 : req.guests ≤ 10)
    (hv : isValidObjectId req.hotel_id = true)
    (hf : find_one .hotel [("_id", Value.vOid req.hotel_id)] s = some hd) :
    create_booking req s
      = (.ok (freshOid s.nextId) "Booking confirmed",
         { s with
             booking := s.booking
               ++ [bookingDoc req ++ [("_id", Value.vOid (freshOid s.nextId))]],
             nextId := s.nextId + 1 },
         [.read .hotel, .write .booking]) := by
  have herr : bookingReqErrors req = [] := by
    simp [bookingReqErrors, he]
  have hcond : ¬ (req.guests < 1 ∨ 10 < req.guests) := by omega
  have hmerr : bookingModelErrors req = [] := by
    simp [bookingModelErrors, he, hcond]
  unfold create_booking
  rw [herr]
  simp [hv, hf, hmerr, create_document]

/-- Witness for C7: `check_out` strictly precedes `check_in` and an
overlapping booking for the same hotel is already stored, yet the booking is
confirmed and appended. -/
theorem C7_no_date_ordering_witness :
    (create_booking reqReversedDates storeWithBooking).1
      = .ok (freshOid storeWithBooking.nextId) "Booking confirmed" ∧
    (create_booking reqReversedDates storeWithBooking).2.1.booking
      = storeWithBooking.booking
          ++ [bookingDoc reqReversedDates
                ++ [("_id", Value.vOid (freshOid storeWithBooking.nextId))]] := by
  have h := C7_no_date_ordering reqReversedDates storeWithBooking seededHotel0
    (by decide) (by decide) (by decide) (by decide) (by decide)
  rw [h]
  exact ⟨rfl, rfl⟩

/-! ## C1 — guests bounds are not checked before the store -/

/-- C1 (amended): a booking request with `guests = 0` or `guests = 11` never
produces a booking record, but it is NOT rejected before store interaction:
the hotel lookup (a store read) runs first, and only then does the `Booking`
schema construction fail — surfaced as a 500 whose detail names `guests`,
not as a field-level validation rejection (and when the hotel is absent the
response is the 404, with the guests violation never reported). -/
theorem C1_guests_bounds (req : BookingRequest) (s : Store) (hd : Doc)
    (he : isValidEmail req.user_email = true)
    (hg : req.guests = 0 ∨ req.guests = 11)
    (hv : isValidObjectId req.hotel_id = true)
    (hf : find_one .hotel [("_id", Value.vOid req.hotel_id)] s = some hd) :
    create_booking req s
      = (.httpError 500 "validation error for Booking: guests", s, [.read .hotel]) := by
  have herr : bookingReqErrors req = [] := by
    simp [bookingReqErrors, he]
  have hcond : req.guests < 1 ∨ 10 < req.guests := by omega
  have hmerr : bookingModelErrors req = ["guests"] := by
    simp [bookingModelErrors, he, hcond]
  unfold create_booking
  rw [herr]
  simp [hv, hf, hmerr]
  rfl

/-- Witness for C1 (amended) at `guests = 0` against the seeded store. -/
theorem C1_guests_bounds_witness :
    create_booking reqGuests0 seededStore
      = (.httpError 500 "validation error for Booking: guests", seededStore,
         [.read .hotel]) :=
  C1_guests_bounds reqGuests0 seededStore seededHotel0
    (by decide) (Or.inl (by decide)) (by decide) (by decide)

/-- C1 counterexample: for the zero-guest request against the seeded store a
store read (the hotel lookup) IS performed, and the failure is the 500 from
the late schema check, not a pre-store validation rejection. -/
theorem C1_guests_bounds_counterexample :
    reqGuests0.guests = 0 ∧
    (create_booking reqGuests0 seededStore).2.2 = [StoreOp.read Coll.hotel] ∧
    (create_booking reqGuests0 seededStore).2.2 ≠ [] ∧
    (create_booking reqGuests0 seededStore).1.statusCode = 500 := by
  decide

/-! ## C8 — login is find-or-create by email -/

/-- C8: `POST /auth/login` is find-or-create by email.  When a user with the
request email exists, its stored profile name is returned and the store is
untouched; when none exists, exactly one user document with that email is
inserted (every other collection unchanged) and its profile is returned.  In
both cases the returned profile carries the request email. -/
theorem C8_login_find_or_create (req : LoginRequest) (s : Store)
    (he : isValidEmail req.email = true) :
    (∀ d, find_one .user [("email", Value.vStr req.email)] s = some d →
      login req s
        = (.ok (match getVal d "name" with
                | some v => v
                | none => Value.vStr (loginName req)) req.email, s)) ∧
    (find_one .user [("email", Value.vStr req.email)] s = none →
      (login req s).2.user
          = s.user ++ [loginUserData req ++ [("_id", Value.vOid (freshOid s.nextId))]] ∧
      countEmail (login req s).2.user req.email = 1 ∧
      (login req s).1 = .ok (Value.vStr (loginName req)) req.email ∧
      (login req s).2.hotel = s.hotel ∧
      (login req s).2.booking = s.booking ∧
      (login req s).2.contactmessage = s.contactmessage) := by
  constructor
  · intro d hfd
    unfold login
    simp [he, hfd]
  · intro hfd
    have hnewdoc : getVal (loginUserData req ++ [("_id", Value.vOid (freshOid s.nextId))])
        "email" = some (Value.vStr req.email) := by
      have h1 : ("name" : String) ≠ "email" := by decide
      simp [loginUserData, getVal, h1]
    have hpred : matchesFilter [("email", Value.vStr req.email)]
        (loginUserData req ++ [("_id", Value.vOid (freshOid s.nextId))]) = true := by
      rw [matchesFilter_singleton, hnewdoc]
      simp
    have hfd' : s.user.find? (matchesFilter [("email", Value.vStr req.email)]) = none := hfd
    have hfind2 : find_one .user [("email", Value.vStr req.email)]
        ((create_document .user (loginUserData req) s).2)
        = some (loginUserData req ++ [("_id", Value.vOid (freshOid s.nextId))]) := by
      show ((s.user ++ [loginUserData req ++ [("_id", Value.vOid (freshOid s.nextId))]]).find?
        (matchesFilter [("email", Value.vStr req.email)])) = _
      rw [List.find?_append, hfd']
      simp [List.find?, hpred]
    have hname : getVal (loginUserData req ++ [("_id", Value.vOid (freshOid s.nextId))])
        "name" = some (Value.vStr (loginName req)) := by
      simp [loginUserData, getVal]
    have hlogin : login req s
        = (.ok (Value.vStr (loginName req)) req.email,
           (create_document .user (loginUserData req) s).2) := by
      unfold login
      simp [he, hfd, hfind2, hname]
    rw [hlogin]
    refine ⟨rfl, ?_, rfl, rfl, rfl, rfl⟩
    show countEmail (s.user ++ [loginUserData req ++ [("_id", Value.vOid (freshOid s.nextId))]])
      req.email = 1
    unfold countEmail
    rw [List.countP_append]
    have hzero : s.user.countP
        (fun d => decide (getVal d "email" = some (Value.vStr req.email))) = 0 := by
      rw [List.countP_eq_zero]
      intro a ha
      have := List.find?_eq_none.mp hfd' a ha
      rw [matchesFilter_singleton] at this
      simpa using this
    rw [hzero]
    simp [List.countP, List.countP.go, hnewdoc]

/-- Witness for C8: logging in against the empty store creates exactly one
user with the request email and returns the derived profile name. -/
theorem C8_login_find_or_create_witness :
    (login loginReqNew emptyStore).2.user
        = [loginUserData loginReqNew ++ [("_id", Value.vOid (freshOid 0))]] ∧
    countEmail (login loginReqNew emptyStore).2.user "a@b.com" = 1 ∧
    (login loginReqNew emptyStore).1 = .ok (Value.vStr "a") "a@b.com" := by
  have h := (C8_login_find_or_create loginReqNew emptyStore (by decide)).2 rfl
  refine ⟨h.1, h.2.1, ?_⟩
  rw [h.2.2.1]
  have hn : loginName loginReqNew = "a" := by decide
  rw [hn]
  rfl

/-! ## C3 — seeding -/

theorem seedStep_of_found (s : Store) (h : Hotel)
    (hs : (find_one .hotel [("name", Value.vStr h.name)] s).isSome) :
    seedStep s h = s := by
  obtain ⟨d, hd⟩ := Option.isSome_iff_exists.mp hs
  unfold seedStep
  rw [hd]

theorem find_one_seedStep_self (s : Store) (h : Hotel) :
    (find_one .hotel [("name", Value.vStr h.name)] (seedStep s h)).isSome := by
  cases hf : find_one .hotel [("name", Value.vStr h.name)] s with
  | some d =>
    have hstep : seedStep s h = s := by
      unfold seedStep
      rw [hf]
    rw [hstep, hf]
    rfl
  | none =>
    have hstep : seedStep s h = (create_document .hotel (hotelDoc h) s).2 := by
      unfold seedStep
      rw [hf]
    rw [hstep]
    have hfd : s.hotel.find? (matchesFilter [("name", Value.vStr h.name)]) = none := hf
    have hpred : matchesFilter [("name", Value.vStr h.name)]
        (hotelDoc h ++ [("_id", Value.vOid (freshOid s.nextId))]) = true := by
      rw [matchesFilter_singleton]
      simp [hotelDoc, getVal]
    show ((s.hotel ++ [hotelDoc h ++ [("_id", Value.vOid (freshOid s.nextId))]]).find?
      (matchesFilter [("name", Value.vStr h.name)])).isSome
    rw [List.find?_append, hfd]
    simp [List.find?, hpred]

theorem find_one_seedStep_mono (s : Store) (h : Hotel) (n : String)
    (hs : (find_one .hotel [("name", Value.vStr n)] s).isSome) :
    (find_one .hotel [("name", Value.vStr n)] (seedStep s h)).isSome := by
  cases hf : find_one .hotel [("name", Value.vStr h.name)] s with
  | some d =>
    have hstep : seedStep s h = s := by
      unfold seedStep
      rw [hf]
    rw [hstep]
    exact hs
  | none =>
    have hstep : seedStep s h = (create_document .hotel (hotelDoc h) s).2 := by
      unfold seedStep
      rw [hf]
    rw [hstep]
    have hs' : (s.hotel.find? (matchesFilter [("name", Value.vStr n)])).isSome := hs
    obtain ⟨d, hd⟩ := Option.isSome_iff_exists.mp hs'
    show ((s.hotel ++ [hotelDoc h ++ [("_id", Value.vOid (freshOid s.nextId))]]).find?
      (matchesFilter [("name", Value.vStr n)])).isSome
    rw [List.find?_append, hd]
    rfl

theorem foldl_seedStep_mono (hs : List Hotel) (s : Store) (n : String)
    (hsome : (find_one .hotel [("name", Value.vStr n)] s).isSome) :
    (find_one .hotel [("name", Value.vStr n)] (hs.foldl seedStep s)).isSome := by
  induction hs generalizing s with
  | nil => exact hsome
  | cons a as ih => exact ih _ (find_one_seedStep_mono s a n hsome)

theorem foldl_seedStep_hasName (hs : List Hotel) (s : Store) (h : Hotel)
    (hmem : h ∈ hs) :
    (find_one .hotel [("name", Value.vStr h.name)] (hs.foldl seedStep s)).isSome := by
  induction hs generalizing s with
  | nil => cases hmem
  | cons a as ih =>
    rcases List.mem_cons.mp hmem with heq | hmem'
    · subst heq
      exact foldl_seedStep_mono as _ _ (find_one_seedStep_self s h)
    · exact ih _ hmem'

theorem foldl_seedStep_fixed (hs : List Hotel) (t : Store)
    (hall : ∀ h ∈ hs, (find_one .hotel [("name", Value.vStr h.name)] t).isSome) :
    hs.foldl seedStep t = t := by
  induction hs with
  | nil => rfl
  | cons a as ih =>
    have ha : seedStep t a = t := seedStep_of_found t a (hall a (List.mem_cons_self a as))
    simp only [List.foldl_cons, ha]
    exact ih (fun h hm => hall h (List.mem_cons_of_mem a hm))

/-- C3 (amended): `POST /hotels/seed` is idempotent from EVERY store state —
a second run changes nothing.  Seeding the empty store yields exactly the
three sample hotels, one per sample name with no duplicates (the unamended
claim that ANY starting state ends with exactly one hotel per sample name
fails when duplicates pre-exist; see the counterexample). -/
theorem C3_seed_idempotent (s : Store) :
    seed_hotels (seed_hotels s) = seed_hotels s ∧
    countName (seed_hotels emptyStore).hotel "Seaside Paradise Resort" = 1 ∧
    countName (seed_hotels emptyStore).hotel "Urban Chic Hotel" = 1 ∧
    countName (seed_hotels emptyStore).hotel "Mountain Escape Lodge" = 1 ∧
    (seed_hotels emptyStore).hotel.length = 3 ∧
    (seed_hotels emptyStore).hotel.map
        (fun d => d.filter (fun (kv : String × Value) => kv.1 != "_id"))
      = SAMPLE_HOTELS.map hotelDoc := by
  refine ⟨?_, by decide, by decide, by decide, by decide, by decide⟩
  unfold seed_hotels
  exact foldl_seedStep_fixed SAMPLE_HOTELS _
    (fun h hm => foldl_seedStep_hasName SAMPLE_HOTELS s h hm)

/-- C3 counterexample: from a store already holding two hotels named after
the first sample, seeding leaves two hotels with that sample name — not
exactly one. -/
theorem C3_seed_idempotent_counterexample :
    countName (seed_hotels dupNameStore).hotel "Seaside Paradise Resort" = 2 ∧
    countName (seed_hotels dupNameStore).hotel "Seaside Paradise Resort" ≠ 1 := by
  decide
